import Mathlib

/-!
Verification of the licitaciones-PLSCT tender pipeline.

Shallow embedding of the pure cores of:
* `src/services/matching-service.js` (scoring and match creation),
* `src/services/sync-service.js` (staleness-gated reconciliation),
* `src/services/placsp-api.js` (CPV / province extraction and filtering).

JavaScript numbers are modelled by `ℚ`, integer scores by `ℤ`, nullable
values by `Option`, and JS truthiness is made explicit at each use site.
Dates are modelled by their epoch-millisecond value; `Date.now()` becomes
an explicit `now : ℚ` parameter.
-/

/-- Models JS `Math.ceil` on rationals: `-⌊-q⌋` computed on numerator and
positive denominator (`Int.fdiv` is floor division). -/
def ceilQ (q : ℚ) : ℤ := -(Int.fdiv (-q.num) (q.den : ℤ))

/-- Tests that `needle` occurs at the start of `hay` (char lists). -/
def leadsList : List Char → List Char → Bool
  | [], _ => true
  | _ :: _, [] => false
  | c :: cs, h :: hs => c == h && leadsList cs hs

/-- Tests that `needle` occurs somewhere in `hay` (char lists). -/
def subList (needle : List Char) : List Char → Bool
  | [] => needle.isEmpty
  | h :: hs => leadsList needle (h :: hs) || subList needle hs

/-- Models JS `hay.includes(needle)`. -/
def strHasSub (hay needle : String) : Bool := subList needle.data hay.data

/-- Models JS `s.startsWith(p)`. -/
def startsW (s p : String) : Bool := leadsList p.data s.data

/-- Models JS `String.prototype.toLowerCase` on the characters this
pipeline manipulates (ASCII plus the Spanish accented letters that occur
in the repository's data tables). -/
def jsLowerChar (c : Char) : Char :=
  if 'A' ≤ c ∧ c ≤ 'Z' then Char.ofNat (c.toNat + 32)
  else if c = 'Á' then 'á' else if c = 'É' then 'é'
  else if c = 'Í' then 'í' else if c = 'Ó' then 'ó'
  else if c = 'Ú' then 'ú' else if c = 'Ü' then 'ü'
  else if c = 'Ñ' then 'ñ' else c

/-- Models JS `String.prototype.toUpperCase` on the same character set. -/
def jsUpperChar (c : Char) : Char :=
  if 'a' ≤ c ∧ c ≤ 'z' then Char.ofNat (c.toNat - 32)
  else if c = 'á' then 'Á' else if c = 'é' then 'É'
  else if c = 'í' then 'Í' else if c = 'ó' then 'Ó'
  else if c = 'ú' then 'Ú' else if c = 'ü' then 'Ü'
  else if c = 'ñ' then 'Ñ' else c

/-- Models `normalize('NFD').replace(/[̀-ͯ]/g, '')` on the same
character set: decomposition followed by removal of combining marks sends
each accented letter to its base letter (and `ñ` to `n`). -/
def stripChar (c : Char) : Char :=
  if c = 'á' then 'a' else if c = 'é' then 'e' else if c = 'í' then 'i'
  else if c = 'ó' then 'o' else if c = 'ú' then 'u' else if c = 'ü' then 'u'
  else if c = 'ñ' then 'n'
  else if c = 'Á' then 'A' else if c = 'É' then 'E' else if c = 'Í' then 'I'
  else if c = 'Ó' then 'O' else if c = 'Ú' then 'U' else if c = 'Ü' then 'U'
  else if c = 'Ñ' then 'N' else c

/-- JS `s.toLowerCase()`. -/
def jsToLowerStr (s : String) : String := String.mk (s.data.map jsLowerChar)

/-- Whitespace as far as JS `String.prototype.trim` and this feed's data
are concerned. -/
def isWsChar (c : Char) : Bool :=
  c = ' ' || c = '\t' || c = '\n' || c = '\r'

/-- JS `s.trim()`: drop whitespace from both ends. -/
def jsTrim (l : List Char) : List Char :=
  ((l.dropWhile isWsChar).reverse.dropWhile isWsChar).reverse

/-- Models `normalizeProvince` from `placsp-api.js`:
`province.toLowerCase().normalize('NFD').replace(/[̀-ͯ]/g,'').trim()`
(the `if (!province) return ''` null guard is absorbed by totality over
strings; `""` maps to `""`). -/
def normalizeProvince (s : String) : String :=
  String.mk (jsTrim ((jsToLowerStr s).data.map stripChar))

/-- JS `s.charAt(0).toUpperCase() + s.slice(1)` as used in
`extractProvince`. -/
def capitalizeJs (s : String) : String :=
  match s.data with
  | [] => ""
  | c :: rest => String.mk (jsUpperChar c :: rest)

/-! ## Matching service data model (`matching-service.js`) -/

/-- A row of `user_profiles` (merged with its `companies` row); only the
fields read by the matching service are modelled. -/
structure UserP where
  user_id : String
  preferred_province : Option String
  locations : Option (List String)
  budget_min : Option ℚ
  budget_max : Option ℚ
  sectors : Option (List String)
deriving DecidableEq

/-- A persisted tender as read by the matching service; only the fields
read there are modelled.  `deadline` is the epoch-millisecond value of the
parsed deadline date (`none` models a null/empty deadline). -/
structure Tender where
  id : String
  province : String
  budget : Option ℚ
  work_type : String
  title : String
  status : String
  deadline : Option ℚ
deriving DecidableEq

/-- Models `profile.locations && profile.locations.includes(p)`: a null array is
falsy, a present (even empty) array is truthy and membership decides. -/
def locIncludes : Option (List String) → String → Bool
  | some l, p => l.contains p
  | none, _ => false

/-- Signal 1 of `calculateMatchScore` (lines 139-149): province match. -/
def regionScore (t : Tender) (u : UserP) : ℤ :=
  if u.preferred_province = some t.province then 40
  else if locIncludes u.locations t.province then 40
  else 10

/-- Signal 2 of `calculateMatchScore` (lines 151-170): budget match.
JS truthiness of `tender.budget`, `user.budget_min`, `user.budget_max`
makes a zero amount falsy. -/
def budgetScore (t : Tender) (u : UserP) : ℤ :=
  match t.budget with
  | none => 10
  | some b =>
    if b = 0 then 10
    else
      match u.budget_min, u.budget_max with
      | some lo, some hi =>
        if lo = 0 ∨ hi = 0 then 15
        else if lo ≤ b ∧ b ≤ hi then 30
        else if lo * (1/2) ≤ b ∧ b ≤ hi * 2 then 20
        else 5
      | some _, none => 15
      | none, _ => 15

/-- The `sectorKeywords` table of `calculateMatchScore`, with the JS
`sectorKeywords[sector] || [sector.toLowerCase()]` fallback. -/
def sectorKeywords (sector : String) : List String :=
  if sector = "Edificación residencial" then
    ["edificación", "edificio", "vivienda", "residencial", "pabellón"]
  else if sector = "Obra civil" then
    ["obra civil", "infraestructura", "urbanización", "pavimentación",
     "carretera", "ingeniería civil"]
  else if sector = "Rehabilitación y reformas" then
    ["rehabilitación", "reforma", "restauración", "mejora"]
  else if sector = "Instalaciones" then
    ["instalación", "instalaciones", "eléctrica", "fontanería", "climatización"]
  else [jsToLowerStr sector]

/-- Models `tenderType.includes(keyword) || tenderTitle.includes(keyword)`. -/
def keywordHits (t : Tender) (kw : String) : Bool :=
  strHasSub (jsToLowerStr t.work_type) kw || strHasSub (jsToLowerStr t.title) kw

/-- The double loop over `user.sectors` with early exit: some sector has
some keyword occurring in the tender's type or title. -/
def hasSectorMatch (t : Tender) (l : List String) : Bool :=
  l.any (fun sec => (sectorKeywords sec).any (fun kw => keywordHits t kw))

/-- Signal 3 of `calculateMatchScore` (lines 172-210): sector match. -/
def sectorScore (t : Tender) (u : UserP) : ℤ :=
  match u.sectors with
  | none => 15
  | some l =>
    if l.length > 0 then (if hasSectorMatch t l then 20 else 10) else 15

/-- First half of signal 4 (lines 212-215): active status. -/
def statusScore (t : Tender) : ℤ := if t.status = "active" then 5 else 0

/-- Models `getDaysUntilDeadline` (lines 236-241):
`Math.ceil((deadlineDate - today) / (1000*60*60*24))`. -/
def getDaysUntilDeadline (deadline now : ℚ) : ℤ :=
  ceilQ ((deadline - now) / (1000 * 60 * 60 * 24))

/-- Second half of signal 4 (lines 217-226): deadline urgency, as a
function of the (nullable) deadline value. -/
def dScore (now : ℚ) : Option ℚ → ℤ
  | none => 0
  | some d =>
    if getDaysUntilDeadline d now > 15 then 5
    else if getDaysUntilDeadline d now > 7 then 3
    else 0

/-- Deadline part of signal 4 for a tender. -/
def deadlineScore (now : ℚ) (t : Tender) : ℤ := dScore now t.deadline

/-- Models `calculateMatchScore` (lines 135-229): the sequential accumulation of
the four signals followed by `Math.min(score, 100)`. -/
def calculateMatchScore (now : ℚ) (t : Tender) (u : UserP) : ℤ :=
  min (regionScore t u + budgetScore t u + sectorScore t u + statusScore t
        + deadlineScore now t) 100

/-- The province predicate of `getUsersByProvince` (lines 92-102):
`profile.preferred_province === province ||
 (profile.locations && profile.locations.includes(province))`. -/
def hasProvince (u : UserP) (province : String) : Bool :=
  u.preferred_province = some province || locIncludes u.locations province

/-- Pure core of `getUsersByProvince` (lines 53-127): the filter of
completed active profiles by province.  (The subsequent merge with each
profile's `companies` row adds subscription fields and leaves every field
modelled here unchanged.) -/
def getUsersByProvince (profiles : List UserP) (province : String) : List UserP :=
  profiles.filter (fun u => hasProvince u province)

/-- Pure core of `createMatch` (lines 250-289) over a store of existing
`(user_id, tender_id)` match pairs: return `none` and leave the store
unchanged when a match already exists, otherwise insert the new pair and
return it. -/
def createMatch (store : List (String × String)) (u : UserP) (t : Tender) :
    Option (String × String) × List (String × String) :=
  if store.contains (u.user_id, t.id) then (none, store)
  else (some (u.user_id, t.id), (u.user_id, t.id) :: store)

/-- Body of the inner loop of `matchTendersWithUsers` (lines 21-33) for one
user: score, gate on `matchScore >= 60`, create, and count a created match.
The accumulator is `(totalMatches, match store)`. -/
def processUser (now : ℚ) (t : Tender) (acc : ℕ × List (String × String))
    (u : UserP) : ℕ × List (String × String) :=
  if calculateMatchScore now t u ≥ 60 then
    match createMatch acc.2 u t with
    | (some _, store) => (acc.1 + 1, store)
    | (none, store) => (acc.1, store)
  else acc

/-- Body of the outer loop of `matchTendersWithUsers` for one tender. -/
def processTender (profiles : List UserP) (now : ℚ)
    (acc : ℕ × List (String × String)) (t : Tender) :
    ℕ × List (String × String) :=
  (getUsersByProvince profiles t.province).foldl (processUser now t) acc

/-- Pure core of `matchTendersWithUsers` (lines 10-46): fold over all
tenders, returning the final `totalMatches` count and match store. -/
def matchTendersWithUsers (profiles : List UserP) (now : ℚ)
    (tenders : List Tender) (store : List (String × String)) :
    ℕ × List (String × String) :=
  tenders.foldl (processTender profiles now) (0, store)

/-! ## Sync service (`sync-service.js`): staleness-gated reconciliation -/

/-- A persisted `tenders` row; only the fields read by `processTenders`
and `shouldUpdate`, plus the `title` field the claim tracks.
`updated_at` is in epoch milliseconds. -/
structure StoredTender where
  id : String
  external_id : String
  title : String
  updated_at : ℚ
deriving DecidableEq

/-- A tender as produced by `placspAPI.transformEntry`; only the fields
`processTenders` reads for identity and the tracked `title`. -/
structure FetchedTender where
  id : String
  contract_folder_id : Option String
  title : String
deriving DecidableEq

/-- Models `tender.contract_folder_id || tender.id` (empty string is falsy). -/
def externalIdOf (t : FetchedTender) : String :=
  match t.contract_folder_id with
  | some c => if c = "" then t.id else c
  | none => t.id

/-- Models `shouldUpdate` (lines 390-396): update only when
`(Date.now() - existing.updated_at) / (1000*60*60) > 24`. -/
def shouldUpdate (now : ℚ) (existing : StoredTender) : Bool :=
  (now - existing.updated_at) / (1000 * 60 * 60) > 24

/-- The `title` field of `transformTenderData` (line 303):
`tender.title || 'Sin título'`. -/
def titleOf (t : FetchedTender) : String :=
  if t.title = "" then "Sin título" else t.title

/-- Body of the `processTenders` loop (lines 235-292) for one fetched
tender, over a store of persisted rows: find the row with the same
`external_id`; if present, rewrite it with the transformed data only when
`shouldUpdate` holds; if absent, insert a new row. -/
def processOne (now : ℚ) (store : List StoredTender) (t : FetchedTender) :
    List StoredTender :=
  match store.find? (fun r => r.external_id == externalIdOf t) with
  | some ex =>
    if shouldUpdate now ex then
      store.map (fun r => if r.id = ex.id then { r with title := titleOf t } else r)
    else store
  | none =>
    store ++ [{ id := externalIdOf t, external_id := externalIdOf t,
                title := titleOf t, updated_at := now }]

/-! ## PLACSP feed extraction (`placsp-api.js`)

`xml2js` (with `explicitArray:false, mergeAttrs:true`) yields for each
leaf either a plain string or an element object whose text, when present,
sits under the key `_`.  `XNode` models exactly these two shapes. -/

/-- A parsed XML leaf: plain text, or an element object with optional
text content under `_`. -/
inductive XNode where
  | text (s : String)
  | elem (t : Option String)
deriving DecidableEq

/-- JS truthiness of an optional `XNode`: `undefined` and `""` are falsy,
every object is truthy. -/
def xTruthy : Option XNode → Bool
  | none => false
  | some (.text s) => s ≠ ""
  | some (.elem _) => true

/-- Result of the JS idiom `x?._ || x` when it is truthy: either a string,
or the element object itself (whose `toString()` is `"[object Object]"`). -/
inductive PVal where
  | pstr (s : String)
  | pobj
deriving DecidableEq

/-- Models `x?._ || x`, capturing null on falsiness and the object fallback when
the element carries no truthy text. -/
def getVal : Option XNode → Option PVal
  | none => none
  | some (.text s) => if s = "" then none else some (.pstr s)
  | some (.elem (some t)) => if t = "" then some .pobj else some (.pstr t)
  | some (.elem none) => some .pobj

/-- String interpolation `${x}` of the value `x?._ || x || ''`, as used to
build the title+summary search text. -/
def jsStrOf (x : Option XNode) : String :=
  match getVal x with
  | none => ""
  | some (.pstr s) => s
  | some .pobj => "[object Object]"

/-- Models `cac:Address`: the two country-subentity fields probed by
`extractProvince` method 1. -/
structure Address where
  subentityCode : Option XNode
  subentity : Option XNode
deriving DecidableEq

/-- Models `cac:RealizedLocation`: a single element or a repeated-element array.
Each cell of the array is its optional `cac:Address` field (accessing cell
`[0]` of an empty array throws). -/
inductive LocNode where
  | sing (addr : Option Address)
  | arr (cells : List (Option Address))
deriving DecidableEq

/-- Models `cac:RequiredCommodityClassification`: a single element or an array;
each cell is its optional `cbc:ItemClassificationCode` field. -/
inductive RccNode where
  | sing (ic : Option XNode)
  | arr (cells : List (Option XNode))
deriving DecidableEq

/-- Models `cac:ProcurementProject`: the two sub-paths the extractors read. -/
structure PProject where
  realizedLocation : Option LocNode
  requiredCommodity : Option RccNode
deriving DecidableEq

/-- Models `ContractFolderStatus`: its procurement project, and the party name
reached through `cac:LocatedContractingParty.cac:Party.cac:PartyName.
cbc:Name` (the optional-chaining prefix collapses missing intermediate
levels into `none`). -/
structure ContractFolder where
  procurementProject : Option PProject
  partyName : Option XNode
deriving DecidableEq

/-- A feed entry, restricted to the paths read by `extractCPV`,
`extractProvince` and `extractContractingBody`.  `contractFolder` models
`entry['cac-place-ext:ContractFolderStatus'] || entry.ContractFolderStatus`. -/
structure Entry where
  contractFolder : Option ContractFolder
  title : Option XNode
  summary : Option XNode
deriving DecidableEq

/-- Result of `extractCPV`: a code string, or the element object returned
by the `|| itemClass` fallback. -/
inductive CpvVal where
  | cstr (s : String)
  | cobj
deriving DecidableEq

/-- Models `itemClass?._ || itemClass || null`. -/
def cpvOfNode : Option XNode → Option CpvVal
  | none => none
  | some (.text s) => if s = "" then none else some (.cstr s)
  | some (.elem (some t)) => if t = "" then some .cobj else some (.cstr t)
  | some (.elem none) => some .cobj

/-- Models `extractCPV` (lines 487-508): walk
`ContractFolderStatus → cac:ProcurementProject →
cac:RequiredCommodityClassification`, take the first element when the
classification is repeated (an empty repetition throws and is caught,
yielding `null`), and unwrap the classification code. -/
def extractCPV (e : Entry) : Option CpvVal :=
  match e.contractFolder with
  | none => none
  | some f =>
    match f.procurementProject with
    | none => none
    | some pp =>
      match pp.requiredCommodity with
      | none => none
      | some (.sing ic) => cpvOfNode ic
      | some (.arr []) => none
      | some (.arr (c :: _)) => cpvOfNode c

/-- Models `cpvCode.toString()`. -/
def cpvToStr : CpvVal → String
  | .cstr s => s
  | .cobj => "[object Object]"

/-- Models `filterByConstruction` (lines 426-440): keep entries whose extracted
CPV is truthy and whose string form starts with `'45'`. -/
def filterByConstruction (entries : List Entry) : List Entry :=
  entries.filter (fun e =>
    match extractCPV e with
    | none => false
    | some v => if cpvToStr v = "" then false else startsW (cpvToStr v) "45")

/-- The fixed gazetteer of lowercase province names inside
`extractProvince` (lines 540-550), in source order. -/
def gazetteer : List String :=
  ["álava", "albacete", "alicante", "almería", "asturias", "ávila",
   "badajoz", "barcelona", "burgos", "cáceres", "cádiz", "cantabria",
   "castellón", "ciudad real", "córdoba", "cuenca", "gerona", "girona", "granada",
   "guadalajara", "guipúzcoa", "gipuzkoa", "huelva", "huesca", "baleares",
   "jaén", "coruña", "rioja", "palmas", "león", "lérida", "lleida",
   "lugo", "madrid", "málaga", "malaga", "murcia", "navarra", "orense", "ourense", "palencia",
   "pontevedra", "salamanca", "tenerife", "segovia",
   "sevilla", "soria", "tarragona", "teruel", "toledo", "valencia",
   "valladolid", "vizcaya", "bizkaia", "zamora", "zaragoza"]

/-- Method 1 of `extractProvince` (lines 517-532): the structured address
path.  `Except.error` models the uncaught `TypeError` of indexing `[0]` of
an empty repeated location (swallowed by the function-level `catch`);
`ok none` means "fall through to method 2". -/
def provinceMethod1 (cf : Option ContractFolder) : Except Unit (Option PVal) :=
  match cf with
  | none => .ok none
  | some f =>
    match f.procurementProject with
    | none => .ok none
    | some pp =>
      match pp.realizedLocation with
      | none => .ok none
      | some (.sing none) => .ok none
      | some (.sing (some a)) =>
        .ok (getVal (if xTruthy a.subentityCode then a.subentityCode else a.subentity))
      | some (.arr []) => .error ()
      | some (.arr (none :: _)) => .ok none
      | some (.arr (some a :: _)) =>
        .ok (getVal (if xTruthy a.subentityCode then a.subentityCode else a.subentity))

/-- Result of `extractContractingBody` (lines 664-672):
`name?._ || name || 'No especificado'` — a string, or the element object
when the name element carries no truthy text. -/
inductive BVal where
  | bstr (s : String)
  | bobj
deriving DecidableEq

/-- Models `extractContractingBody`: the party-name lookup with its internal
`catch` returning the default on a missing folder. -/
def extractContractingBody (cf : Option ContractFolder) : BVal :=
  match cf with
  | none => .bstr "No especificado"
  | some f =>
    match getVal f.partyName with
    | none => .bstr "No especificado"
    | some (.pstr s) => .bstr s
    | some .pobj => .bobj

/-- The lowercased title+summary search text of method 2:
`` `${title} ${summary}`.toLowerCase() ``. -/
def entryTextLower (e : Entry) : String :=
  jsToLowerStr (jsStrOf e.title ++ " " ++ jsStrOf e.summary)

/-- Models `extractProvince` (lines 515-574): structured path, then first
gazetteer name occurring in the lowercased title+summary (capitalized on
return), then the same search over the contracting-body name; any thrown
`TypeError` (empty repeated location, or `toLowerCase` on an object body)
is caught and yields `null`. -/
def extractProvince (e : Entry) : Option PVal :=
  match provinceMethod1 e.contractFolder with
  | .error _ => none
  | .ok (some v) => some v
  | .ok none =>
    match gazetteer.find? (fun p => strHasSub (entryTextLower e) p) with
    | some p => some (.pstr (capitalizeJs p))
    | none =>
      match extractContractingBody e.contractFolder with
      | .bobj => none
      | .bstr s =>
        match gazetteer.find? (fun p => strHasSub (jsToLowerStr s) p) with
        | some p => some (.pstr (capitalizeJs p))
        | none => none

/-- Models `filterByProvinces` (lines 448-480): normalize the provinces of
interest once, then keep entries whose extracted province is truthy and
whose normalized form is among them; a non-string extracted province makes
`normalizeProvince` throw inside the per-entry `try`, excluding the entry. -/
def filterByProvinces (entries : List Entry) (provinces : List String) :
    List Entry :=
  let provincesLower := provinces.map normalizeProvince
  entries.filter (fun e =>
    match extractProvince e with
    | none => false
    | some .pobj => false
    | some (.pstr p) =>
      if p = "" then false else provincesLower.contains (normalizeProvince p))

/-! ## Helper lemmas -/

theorem ceilQ_intCast (k : ℤ) : ceilQ (k : ℚ) = k := by
  unfold ceilQ
  simp [Rat.num_intCast, Rat.den_intCast, Int.fdiv_one]

theorem daysUntil_eval (d now : ℚ) (k : ℤ)
    (h : (d - now) / (1000 * 60 * 60 * 24) = (k : ℚ)) :
    getDaysUntilDeadline d now = k := by
  unfold getDaysUntilDeadline
  rw [h]
  exact ceilQ_intCast k

theorem regionScore_bounds (t : Tender) (u : UserP) :
    10 ≤ regionScore t u ∧ regionScore t u ≤ 40 := by
  unfold regionScore
  split_ifs <;> omega

theorem budgetScore_bounds (t : Tender) (u : UserP) :
    5 ≤ budgetScore t u ∧ budgetScore t u ≤ 30 := by
  unfold budgetScore
  rcases t.budget with _ | b <;> dsimp only
  · omega
  · rcases u.budget_min with _ | lo <;> rcases u.budget_max with _ | hi <;>
      dsimp only <;> split_ifs <;> omega

theorem sectorScore_bounds (t : Tender) (u : UserP) :
    10 ≤ sectorScore t u ∧ sectorScore t u ≤ 20 := by
  unfold sectorScore
  rcases u.sectors with _ | l <;> dsimp only
  · omega
  · split_ifs <;> omega

theorem statusScore_bounds (t : Tender) :
    0 ≤ statusScore t ∧ statusScore t ≤ 5 := by
  unfold statusScore
  split_ifs <;> omega

theorem dScore_bounds (now : ℚ) (od : Option ℚ) :
    0 ≤ dScore now od ∧ dScore now od ≤ 5 := by
  unfold dScore
  rcases od with _ | d <;> dsimp only
  · omega
  · split_ifs <;> omega

theorem budgetScore_user_congr (t : Tender) (u u' : UserP)
    (h1 : u'.budget_min = u.budget_min) (h2 : u'.budget_max = u.budget_max) :
    budgetScore t u' = budgetScore t u := by
  unfold budgetScore
  rw [h1, h2]

theorem sectorScore_user_congr (t : Tender) (u u' : UserP)
    (h : u'.sectors = u.sectors) : sectorScore t u' = sectorScore t u := by
  unfold sectorScore
  rw [h]

theorem regionScore_tender_congr (t t' : Tender) (u : UserP)
    (h : t'.province = t.province) : regionScore t' u = regionScore t u := by
  unfold regionScore
  rw [h]

theorem budgetScore_tender_congr (t t' : Tender) (u : UserP)
    (h : t'.budget = t.budget) : budgetScore t' u = budgetScore t u := by
  unfold budgetScore
  rw [h]

theorem regionScore_of_hit (t : Tender) (u : UserP)
    (h : u.preferred_province = some t.province ∨
         locIncludes u.locations t.province = true) :
    regionScore t u = 40 := by
  unfold regionScore
  rcases h with h | h
  · rw [if_pos h]
  · split_ifs <;> simp_all

theorem budgetScore_eval (t : Tender) (u : UserP) (lo hi b : ℚ)
    (ht : t.budget = some b) (hmin : u.budget_min = some lo)
    (hmax : u.budget_max = some hi) (hlo : lo ≠ 0) (hhi : hi ≠ 0)
    (hb : b ≠ 0) :
    budgetScore t u =
      if lo ≤ b ∧ b ≤ hi then 30
      else if lo * (1/2) ≤ b ∧ b ≤ hi * 2 then 20
      else 5 := by
  unfold budgetScore
  rw [ht, hmin, hmax]
  dsimp only
  rw [if_neg hb, if_neg (by tauto)]

theorem sectorScore_eval (t : Tender) (u : UserP) (l : List String)
    (h : u.sectors = some l) (hl : l ≠ []) :
    sectorScore t u = if hasSectorMatch t l then 20 else 10 := by
  unfold sectorScore
  rw [h]
  dsimp only
  rw [if_pos (by simpa [List.length_pos] using hl)]

theorem dScore_top (now : ℚ) (d : ℚ) (h : 15 < getDaysUntilDeadline d now) :
    dScore now (some d) = 5 := by
  unfold dScore
  dsimp only
  rw [if_pos h]

theorem dScore_mid (now : ℚ) (d : ℚ) (h7 : 7 < getDaysUntilDeadline d now)
    (h15 : getDaysUntilDeadline d now ≤ 15) : dScore now (some d) = 3 := by
  unfold dScore
  dsimp only
  rw [if_neg (by omega), if_pos h7]

theorem dScore_low (now : ℚ) (d : ℚ) (h : getDaysUntilDeadline d now ≤ 7) :
    dScore now (some d) = 0 := by
  unfold dScore
  dsimp only
  rw [if_neg (by omega), if_neg (by omega)]

theorem score_sum_mono {a b c d e a' b' c' d' e' : ℤ}
    (ha : a' ≤ a) (hb : b' ≤ b) (hc : c' ≤ c) (hd : d' ≤ d) (he : e' ≤ e) :
    min (a' + b' + c' + d' + e') 100 ≤ min (a + b + c + d + e) 100 :=
  min_le_min (by omega) le_rfl

/-! ## Claim theorems -/

/-- C1: for every tender and every user profile, `calculateMatchScore`
returns an integer in the closed interval `[0, 100]`. -/
theorem calculateMatchScore_in_range (now : ℚ) (t : Tender) (u : UserP) :
    0 ≤ calculateMatchScore now t u ∧ calculateMatchScore now t u ≤ 100 := by
  have hr := regionScore_bounds t u
  have hb := budgetScore_bounds t u
  have hs := sectorScore_bounds t u
  have hst := statusScore_bounds t
  have hd := dScore_bounds now t.deadline
  unfold calculateMatchScore deadlineScore
  constructor
  · exact le_min (by omega) (by norm_num)
  · exact min_le_right _ _

/-- C10: every score is at least 25, because the region, budget and sector
signals have floors of 10, 5 and 10 respectively (and the cap at 100 does
not cut below 25). -/
theorem calculateMatchScore_floor (now : ℚ) (t : Tender) (u : UserP) :
    25 ≤ calculateMatchScore now t u := by
  have hr := regionScore_bounds t u
  have hb := budgetScore_bounds t u
  have hs := sectorScore_bounds t u
  have hst := statusScore_bounds t
  have hd := dScore_bounds now t.deadline
  unfold calculateMatchScore deadlineScore
  exact le_min (by omega) (by norm_num)

/-- C3: holding the other signals fixed, `calculateMatchScore` never
decreases when one signal moves to a better match tier: an exact region
match (+40) dominates non-exact (+10); a budget inside `[min,max]` (+30)
dominates any other budget value, and one inside `[min*0.5, max*2]` (+20)
dominates one outside both ranges (+5); a sector keyword match (+20)
dominates no keyword match (+10); status `active` (+5) dominates any other
status; and a later deadline tier dominates an earlier one. -/
theorem calculateMatchScore_tier_monotone :
    (∀ (now : ℚ) (t : Tender) (u u' : UserP),
       u'.budget_min = u.budget_min → u'.budget_max = u.budget_max →
       u'.sectors = u.sectors →
       (u.preferred_province = some t.province ∨
         locIncludes u.locations t.province = true) →
       calculateMatchScore now t u' ≤ calculateMatchScore now t u)
  ∧ (∀ (now : ℚ) (t : Tender) (u : UserP) (lo hi b b' : ℚ),
       u.budget_min = some lo → u.budget_max = some hi → lo ≠ 0 → hi ≠ 0 →
       b ≠ 0 → b' ≠ 0 → lo ≤ b ∧ b ≤ hi →
       calculateMatchScore now { t with budget := some b' } u ≤
         calculateMatchScore now { t with budget := some b } u)
  ∧ (∀ (now : ℚ) (t : Tender) (u : UserP) (lo hi b b' : ℚ),
       u.budget_min = some lo → u.budget_max = some hi → lo ≠ 0 → hi ≠ 0 →
       b ≠ 0 → b' ≠ 0 → lo * (1/2) ≤ b ∧ b ≤ hi * 2 →
       ¬(lo ≤ b' ∧ b' ≤ hi) → ¬(lo * (1/2) ≤ b' ∧ b' ≤ hi * 2) →
       calculateMatchScore now { t with budget := some b' } u ≤
         calculateMatchScore now { t with budget := some b } u)
  ∧ (∀ (now : ℚ) (t t' : Tender) (u : UserP) (l : List String),
       u.sectors = some l → l ≠ [] →
       t'.province = t.province → t'.budget = t.budget →
       t'.status = t.status → t'.deadline = t.deadline →
       hasSectorMatch t l = true → hasSectorMatch t' l = false →
       calculateMatchScore now t' u ≤ calculateMatchScore now t u)
  ∧ (∀ (now : ℚ) (t : Tender) (u : UserP) (s' : String),
       t.status = "active" →
       calculateMatchScore now { t with status := s' } u ≤
         calculateMatchScore now t u)
  ∧ (∀ (now : ℚ) (t : Tender) (u : UserP) (d : ℚ) (od' : Option ℚ),
       15 < getDaysUntilDeadline d now →
       calculateMatchScore now { t with deadline := od' } u ≤
         calculateMatchScore now { t with deadline := some d } u)
  ∧ (∀ (now : ℚ) (t : Tender) (u : UserP) (d d' : ℚ),
       7 < getDaysUntilDeadline d now → getDaysUntilDeadline d' now ≤ 7 →
       calculateMatchScore now { t with deadline := some d' } u ≤
         calculateMatchScore now { t with deadline := some d } u) := by
  refine ⟨?_, ?_, ?_, ?_, ?_, ?_, ?_⟩
  · intro now t u u' hbmin hbmax hsec hhit
    unfold calculateMatchScore
    apply score_sum_mono
    · rw [regionScore_of_hit t u hhit]
      exact (regionScore_bounds t u').2
    · rw [budgetScore_user_congr t u u' hbmin hbmax]
    · rw [sectorScore_user_congr t u u' hsec]
    · exact le_rfl
    · exact le_rfl
  · intro now t u lo hi b b' hmin hmax hlo hhi hb hb' hin
    unfold calculateMatchScore
    apply score_sum_mono
    · exact le_of_eq (regionScore_tender_congr _ _ _ rfl)
    · rw [budgetScore_eval { t with budget := some b } u lo hi b rfl hmin hmax hlo hhi hb,
        budgetScore_eval { t with budget := some b' } u lo hi b' rfl hmin hmax hlo hhi hb']
      rw [if_pos hin]
      split_ifs <;> omega
    · exact le_rfl
    · exact le_rfl
    · exact le_rfl
  · intro now t u lo hi b b' hmin hmax hlo hhi hb hb' hnear hnotin' hnotnear'
    unfold calculateMatchScore
    apply score_sum_mono
    · exact le_of_eq (regionScore_tender_congr _ _ _ rfl)
    · rw [budgetScore_eval { t with budget := some b } u lo hi b rfl hmin hmax hlo hhi hb,
        budgetScore_eval { t with budget := some b' } u lo hi b' rfl hmin hmax hlo hhi hb']
      rw [if_neg hnotin', if_neg hnotnear']
      split_ifs <;> omega
    · exact le_rfl
    · exact le_rfl
    · exact le_rfl
  · intro now t t' u l hsec hl hprov hbud hstat hdead hmatch hnomatch
    unfold calculateMatchScore
    apply score_sum_mono
    · exact le_of_eq (regionScore_tender_congr t t' u hprov)
    · exact le_of_eq (budgetScore_tender_congr t t' u hbud)
    · rw [sectorScore_eval t u l hsec hl, sectorScore_eval t' u l hsec hl,
        hmatch, hnomatch]
      norm_num
    · unfold statusScore
      rw [hstat]
    · unfold deadlineScore
      rw [hdead]
  · intro now t u s' hact
    unfold calculateMatchScore
    apply score_sum_mono
    · exact le_of_eq (regionScore_tender_congr _ _ _ rfl)
    · exact le_of_eq (budgetScore_tender_congr _ _ _ rfl)
    · exact le_rfl
    · unfold statusScore
      dsimp only
      rw [hact, if_pos rfl]
      split_ifs <;> omega
    · exact le_rfl
  · intro now t u d od' htop
    unfold calculateMatchScore
    apply score_sum_mono
    · exact le_of_eq (regionScore_tender_congr _ _ _ rfl)
    · exact le_of_eq (budgetScore_tender_congr _ _ _ rfl)
    · exact le_rfl
    · exact le_rfl
    · unfold deadlineScore
      dsimp only
      rw [dScore_top now d htop]
      exact (dScore_bounds now od').2
  · intro now t u d d' hmid hlow
    unfold calculateMatchScore
    apply score_sum_mono
    · exact le_of_eq (regionScore_tender_congr _ _ _ rfl)
    · exact le_of_eq (budgetScore_tender_congr _ _ _ rfl)
    · exact le_rfl
    · exact le_rfl
    · unfold deadlineScore
      dsimp only
      rw [dScore_low now d' hlow]
      exact (dScore_bounds now (some d)).1

/-- Witness for C3: each tier comparison instantiated at concrete
tenders and profiles. -/
theorem calculateMatchScore_tier_monotone_witness :
    (calculateMatchScore 0 ⟨"t1", "Madrid", none, "", "", "x", none⟩
        ⟨"u1", none, none, none, none, none⟩ ≤
      calculateMatchScore 0 ⟨"t1", "Madrid", none, "", "", "x", none⟩
        ⟨"u1", some "Madrid", none, none, none, none⟩)
  ∧ (calculateMatchScore 0 ⟨"t1", "Madrid", some 5, "", "", "x", none⟩
        ⟨"u1", none, none, some 100000, some 500000, none⟩ ≤
      calculateMatchScore 0 ⟨"t1", "Madrid", some 300000, "", "", "x", none⟩
        ⟨"u1", none, none, some 100000, some 500000, none⟩)
  ∧ (calculateMatchScore 0 ⟨"t1", "Madrid", some 2000001, "", "", "x", none⟩
        ⟨"u1", none, none, some 100000, some 500000, none⟩ ≤
      calculateMatchScore 0 ⟨"t1", "Madrid", some 600000, "", "", "x", none⟩
        ⟨"u1", none, none, some 100000, some 500000, none⟩)
  ∧ (calculateMatchScore 0 ⟨"t1", "Madrid", none, "zzz", "", "x", none⟩
        ⟨"u1", none, none, none, none, some ["Rehabilitación y reformas"]⟩ ≤
      calculateMatchScore 0 ⟨"t1", "Madrid", none, "reforma", "", "x", none⟩
        ⟨"u1", none, none, none, none, some ["Rehabilitación y reformas"]⟩)
  ∧ (calculateMatchScore 0 ⟨"t1", "Madrid", none, "", "", "x", none⟩
        ⟨"u1", none, none, none, none, none⟩ ≤
      calculateMatchScore 0 ⟨"t1", "Madrid", none, "", "", "active", none⟩
        ⟨"u1", none, none, none, none, none⟩)
  ∧ (calculateMatchScore 0 ⟨"t1", "Madrid", none, "", "", "x", none⟩
        ⟨"u1", none, none, none, none, none⟩ ≤
      calculateMatchScore 0 ⟨"t1", "Madrid", none, "", "", "x",
          some (16 * 86400000)⟩ ⟨"u1", none, none, none, none, none⟩)
  ∧ (calculateMatchScore 0 ⟨"t1", "Madrid", none, "", "", "x",
          some (7 * 86400000)⟩ ⟨"u1", none, none, none, none, none⟩ ≤
      calculateMatchScore 0 ⟨"t1", "Madrid", none, "", "", "x",
          some (8 * 86400000)⟩ ⟨"u1", none, none, none, none, none⟩) := by
  refine ⟨?_, ?_, ?_, ?_, ?_, ?_, ?_⟩
  · exact calculateMatchScore_tier_monotone.1 0
      ⟨"t1", "Madrid", none, "", "", "x", none⟩
      ⟨"u1", some "Madrid", none, none, none, none⟩
      ⟨"u1", none, none, none, none, none⟩ rfl rfl rfl (Or.inl rfl)
  · exact calculateMatchScore_tier_monotone.2.1 0
      ⟨"t1", "Madrid", none, "", "", "x", none⟩
      ⟨"u1", none, none, some 100000, some 500000, none⟩
      100000 500000 300000 5 rfl rfl (by norm_num) (by norm_num)
      (by norm_num) (by norm_num) (by norm_num)
  · exact calculateMatchScore_tier_monotone.2.2.1 0
      ⟨"t1", "Madrid", none, "", "", "x", none⟩
      ⟨"u1", none, none, some 100000, some 500000, none⟩
      100000 500000 600000 2000001 rfl rfl (by norm_num) (by norm_num)
      (by norm_num) (by norm_num) (by norm_num) (by norm_num) (by norm_num)
  · exact calculateMatchScore_tier_monotone.2.2.2.1 0
      ⟨"t1", "Madrid", none, "reforma", "", "x", none⟩
      ⟨"t1", "Madrid", none, "zzz", "", "x", none⟩
      ⟨"u1", none, none, none, none, some ["Rehabilitación y reformas"]⟩
      ["Rehabilitación y reformas"] rfl (by decide) rfl rfl rfl rfl
      (by decide) (by decide)
  · exact calculateMatchScore_tier_monotone.2.2.2.2.1 0
      ⟨"t1", "Madrid", none, "", "", "active", none⟩
      ⟨"u1", none, none, none, none, none⟩ "x" rfl
  · exact calculateMatchScore_tier_monotone.2.2.2.2.2.1 0
      ⟨"t1", "Madrid", none, "", "", "x", none⟩
      ⟨"u1", none, none, none, none, none⟩ (16 * 86400000) none
      (by rw [daysUntil_eval (16 * 86400000 : ℚ) 0 16 (by norm_num)]; norm_num)
  · exact calculateMatchScore_tier_monotone.2.2.2.2.2.2 0
      ⟨"t1", "Madrid", none, "", "", "x", none⟩
      ⟨"u1", none, none, none, none, none⟩ (8 * 86400000) (7 * 86400000)
      (by rw [daysUntil_eval (8 * 86400000 : ℚ) 0 8 (by norm_num)]; norm_num)
      (by rw [daysUntil_eval (7 * 86400000 : ℚ) 0 7 (by norm_num)])

theorem contains_iff_mem_pair (l : List (String × String)) (a : String × String) :
    l.contains a = true ↔ a ∈ l := by
  simp [List.elem_iff, List.contains]

/-- C2: inside `matchTendersWithUsers`, processing one candidate user for
one tender creates a match row exactly when the score reaches 60 and no
row exists yet for that `(userId, tenderId)` pair: a fresh pair with score
`≥ 60` is inserted and counted, a score below 60 (in particular 59)
changes nothing, a pre-existing pair is left untouched and not counted,
and membership after the step holds iff it held before or the score
reached 60; a score of exactly 60 creates and counts the row. -/
theorem processUser_match_policy :
    (∀ (now : ℚ) (t : Tender) (u : UserP) (acc : ℕ × List (String × String)),
       60 ≤ calculateMatchScore now t u →
       acc.2.contains (u.user_id, t.id) = false →
       processUser now t acc u = (acc.1 + 1, (u.user_id, t.id) :: acc.2))
  ∧ (∀ (now : ℚ) (t : Tender) (u : UserP) (acc : ℕ × List (String × String)),
       calculateMatchScore now t u < 60 → processUser now t acc u = acc)
  ∧ (∀ (now : ℚ) (t : Tender) (u : UserP) (acc : ℕ × List (String × String)),
       acc.2.contains (u.user_id, t.id) = true → processUser now t acc u = acc)
  ∧ (∀ (now : ℚ) (t : Tender) (u : UserP) (acc : ℕ × List (String × String)),
       (u.user_id, t.id) ∈ (processUser now t acc u).2 ↔
         (u.user_id, t.id) ∈ acc.2 ∨ 60 ≤ calculateMatchScore now t u)
  ∧ (∀ (now : ℚ) (t : Tender) (u : UserP) (acc : ℕ × List (String × String)),
       calculateMatchScore now t u = 60 →
       acc.2.contains (u.user_id, t.id) = false →
       (u.user_id, t.id) ∈ (processUser now t acc u).2 ∧
         (processUser now t acc u).1 = acc.1 + 1) := by
  have hstep : ∀ (now : ℚ) (t : Tender) (u : UserP)
      (acc : ℕ × List (String × String)),
      processUser now t acc u =
        if 60 ≤ calculateMatchScore now t u then
          (if acc.2.contains (u.user_id, t.id) then (acc.1, acc.2)
           else (acc.1 + 1, (u.user_id, t.id) :: acc.2))
        else acc := by
    intro now t u acc
    unfold processUser createMatch
    by_cases h1 : 60 ≤ calculateMatchScore now t u
    · by_cases h2 : acc.2.contains (u.user_id, t.id) = true
      · have hm := (contains_iff_mem_pair acc.2 (u.user_id, t.id)).mp h2
        simp [ge_iff_le, h1, h2, hm]
      · have hm : (u.user_id, t.id) ∉ acc.2 := fun m => by
          rw [(contains_iff_mem_pair acc.2 (u.user_id, t.id)).mpr m] at h2
          exact h2 rfl
        simp only [Bool.not_eq_true] at h2
        simp [ge_iff_le, h1, h2, hm]
    · simp [ge_iff_le, h1]
  refine ⟨?_, ?_, ?_, ?_, ?_⟩
  · intro now t u acc hs hc
    rw [hstep, if_pos hs, hc]
    simp
  · intro now t u acc hs
    rw [hstep, if_neg (by omega)]
  · intro now t u acc hc
    rw [hstep, hc]
    split_ifs <;> simp_all
  · intro now t u acc
    rw [hstep]
    split_ifs with h1 h2
    · have hm := (contains_iff_mem_pair acc.2 (u.user_id, t.id)).mp h2
      simp [hm, h1]
    · simp [h1]
    · simp [h1]
  · intro now t u acc hs hc
    rw [hstep, if_pos (by omega), hc]
    simp

/-- Witness for C2: concrete runs of the per-user matching step — a fresh
pair with score 65 is created and counted, a score-35 pair is not, a
pre-existing pair is untouched and uncounted, the membership equivalence
at a concrete input, and a score of exactly 60 creating a match. -/
theorem processUser_match_policy_witness :
    processUser 0 ⟨"t1", "Madrid", none, "zzz", "", "x", none⟩ (0, [])
        ⟨"u1", some "Madrid", none, none, none, none⟩ = (1, [("u1", "t1")])
  ∧ processUser 0 ⟨"t1", "Madrid", none, "zzz", "", "x", none⟩ (0, [])
        ⟨"u1", none, none, none, none, none⟩ = (0, [])
  ∧ processUser 0 ⟨"t1", "Madrid", none, "zzz", "", "x", none⟩
        (3, [("u1", "t1")])
        ⟨"u1", some "Madrid", none, none, none, none⟩ = (3, [("u1", "t1")])
  ∧ (("u1", "t1") ∈ (processUser 0 ⟨"t1", "Madrid", none, "zzz", "", "x", none⟩
        (0, []) ⟨"u1", some "Madrid", none, none, none, none⟩).2 ↔
      ("u1", "t1") ∈ ([] : List (String × String)) ∨
        60 ≤ calculateMatchScore 0 ⟨"t1", "Madrid", none, "zzz", "", "x", none⟩
          ⟨"u1", some "Madrid", none, none, none, none⟩)
  ∧ calculateMatchScore 0 ⟨"t1", "Madrid", none, "zzz", "", "x", none⟩
        ⟨"u1", some "Madrid", none, none, none, some ["qqq"]⟩ = 60
  ∧ ("u1", "t1") ∈ (processUser 0 ⟨"t1", "Madrid", none, "zzz", "", "x", none⟩
        (0, []) ⟨"u1", some "Madrid", none, none, none, some ["qqq"]⟩).2
  ∧ (processUser 0 ⟨"t1", "Madrid", none, "zzz", "", "x", none⟩ (0, [])
        ⟨"u1", some "Madrid", none, none, none, some ["qqq"]⟩).1 = 0 + 1 := by
  have h60 := processUser_match_policy.2.2.2.2 0
    ⟨"t1", "Madrid", none, "zzz", "", "x", none⟩
    ⟨"u1", some "Madrid", none, none, none, some ["qqq"]⟩ (0, [])
    (by decide) rfl
  exact ⟨processUser_match_policy.1 0
      ⟨"t1", "Madrid", none, "zzz", "", "x", none⟩
      ⟨"u1", some "Madrid", none, none, none, none⟩ (0, []) (by decide) rfl,
    processUser_match_policy.2.1 0
      ⟨"t1", "Madrid", none, "zzz", "", "x", none⟩
      ⟨"u1", none, none, none, none, none⟩ (0, []) (by decide),
    processUser_match_policy.2.2.1 0
      ⟨"t1", "Madrid", none, "zzz", "", "x", none⟩
      ⟨"u1", some "Madrid", none, none, none, none⟩ (3, [("u1", "t1")])
      (by decide),
    processUser_match_policy.2.2.2.1 0
      ⟨"t1", "Madrid", none, "zzz", "", "x", none⟩
      ⟨"u1", some "Madrid", none, none, none, none⟩ (0, []),
    by decide, h60.1, h60.2⟩

/-- C9: every user returned by `getUsersByProvince p` scores the exact
region branch (+40) of `calculateMatchScore` on any tender whose province
is `p`; the +10 non-exact base branch is unreachable for such candidates. -/
theorem getUsersByProvince_region_branch (profiles : List UserP) (p : String)
    (u : UserP) (t : Tender) (hu : u ∈ getUsersByProvince profiles p)
    (ht : t.province = p) : regionScore t u = 40 := by
  have hp : hasProvince u p = true := (List.mem_filter.mp hu).2
  unfold hasProvince at hp
  rw [Bool.or_eq_true] at hp
  apply regionScore_of_hit
  rw [ht]
  rcases hp with hp | hp
  · left
    exact of_decide_eq_true hp
  · right
    exact hp

/-- Witness for C9: a concrete profile keeps the +40 branch on a tender in
its preferred province. -/
theorem getUsersByProvince_region_branch_witness :
    (⟨"u1", some "Madrid", none, none, none, none⟩ : UserP) ∈
        getUsersByProvince [⟨"u1", some "Madrid", none, none, none, none⟩] "Madrid"
      ∧ regionScore ⟨"t1", "Madrid", none, "", "", "x", none⟩
          ⟨"u1", some "Madrid", none, none, none, none⟩ = 40 :=
  ⟨by decide,
    getUsersByProvince_region_branch
      [⟨"u1", some "Madrid", none, none, none, none⟩] "Madrid"
      ⟨"u1", some "Madrid", none, none, none, none⟩
      ⟨"t1", "Madrid", none, "", "", "x", none⟩ (by decide) rfl⟩

/-- C8 (amended): the recency/urgency block of `calculateMatchScore`
contributes exactly +5 for status `active`, plus +5 when the deadline is
more than 15 days out and +3 when it is more than 7 and at most 15 days
out; a deadline of exactly 7 days (or fewer, or none) contributes 0. -/
theorem calculateMatchScore_recency :
    (∀ (now : ℚ) (t : Tender) (u : UserP),
       calculateMatchScore now t u =
         min (regionScore t u + budgetScore t u + sectorScore t u
               + (if t.status = "active" then 5 else 0)
               + dScore now t.deadline) 100)
  ∧ (∀ (now : ℚ) (t : Tender) (d : ℚ), t.deadline = some d →
       15 < getDaysUntilDeadline d now → deadlineScore now t = 5)
  ∧ (∀ (now : ℚ) (t : Tender) (d : ℚ), t.deadline = some d →
       7 < getDaysUntilDeadline d now → getDaysUntilDeadline d now ≤ 15 →
       deadlineScore now t = 3)
  ∧ (∀ (now : ℚ) (t : Tender) (d : ℚ), t.deadline = some d →
       getDaysUntilDeadline d now ≤ 7 → deadlineScore now t = 0)
  ∧ (∀ (now : ℚ) (t : Tender), t.deadline = none → deadlineScore now t = 0)
  ∧ (∀ t : Tender, t.status = "active" → statusScore t = 5)
  ∧ (∀ t : Tender, t.status ≠ "active" → statusScore t = 0) := by
  refine ⟨fun now t u => rfl, ?_, ?_, ?_, ?_, ?_, ?_⟩
  · intro now t d hd h
    unfold deadlineScore
    rw [hd]
    exact dScore_top now d h
  · intro now t d hd h7 h15
    unfold deadlineScore
    rw [hd]
    exact dScore_mid now d h7 h15
  · intro now t d hd h
    unfold deadlineScore
    rw [hd]
    exact dScore_low now d h
  · intro now t hd
    unfold deadlineScore
    rw [hd]
    rfl
  · intro t h
    unfold statusScore
    rw [if_pos h]
  · intro t h
    unfold statusScore
    rw [if_neg h]

/-- Witness for C8: the recency contributions evaluated at concrete
deadlines 16, 8 and 7 days out, a missing deadline, and both statuses. -/
theorem calculateMatchScore_recency_witness :
    deadlineScore 0 ⟨"t1", "p", none, "", "", "x", some (16 * 86400000)⟩ = 5
  ∧ deadlineScore 0 ⟨"t1", "p", none, "", "", "x", some (8 * 86400000)⟩ = 3
  ∧ deadlineScore 0 ⟨"t1", "p", none, "", "", "x", some (7 * 86400000)⟩ = 0
  ∧ deadlineScore 0 ⟨"t1", "p", none, "", "", "x", none⟩ = 0
  ∧ statusScore ⟨"t1", "p", none, "", "", "active", none⟩ = 5
  ∧ statusScore ⟨"t1", "p", none, "", "", "x", none⟩ = 0 :=
  ⟨calculateMatchScore_recency.2.1 0 _ (16 * 86400000) rfl
      (by rw [daysUntil_eval (16 * 86400000 : ℚ) 0 16 (by norm_num)]; norm_num),
    calculateMatchScore_recency.2.2.1 0 _ (8 * 86400000) rfl
      (by rw [daysUntil_eval (8 * 86400000 : ℚ) 0 8 (by norm_num)]; norm_num)
      (by rw [daysUntil_eval (8 * 86400000 : ℚ) 0 8 (by norm_num)]; norm_num),
    calculateMatchScore_recency.2.2.2.1 0 _ (7 * 86400000) rfl
      (by rw [daysUntil_eval (7 * 86400000 : ℚ) 0 7 (by norm_num)]),
    calculateMatchScore_recency.2.2.2.2.1 0 _ rfl,
    calculateMatchScore_recency.2.2.2.2.2.1 _ rfl,
    calculateMatchScore_recency.2.2.2.2.2.2 _ (by decide)⟩

/-- Counterexample to C8 as stated: a deadline exactly 7 days out
(`getDaysUntilDeadline = 7`) contributes 0, not +3 — the score with that
deadline equals the score with no deadline at all. -/
theorem deadline_exactly_seven_counterexample :
    getDaysUntilDeadline (7 * 86400000) 0 = 7
  ∧ calculateMatchScore 0 ⟨"t1", "p", none, "", "", "x", some (7 * 86400000)⟩
        ⟨"u1", none, none, none, none, none⟩ =
      calculateMatchScore 0 ⟨"t1", "p", none, "", "", "x", none⟩
        ⟨"u1", none, none, none, none, none⟩
  ∧ ¬(calculateMatchScore 0 ⟨"t1", "p", none, "", "", "x", some (7 * 86400000)⟩
        ⟨"u1", none, none, none, none, none⟩ =
      calculateMatchScore 0 ⟨"t1", "p", none, "", "", "x", none⟩
        ⟨"u1", none, none, none, none, none⟩ + 3) := by
  have h7 := daysUntil_eval (7 * 86400000 : ℚ) 0 7 (by norm_num)
  have hd : dScore 0 (some (7 * 86400000 : ℚ)) = 0 := dScore_low 0 _ (by rw [h7])
  have hA : calculateMatchScore 0
      ⟨"t1", "p", none, "", "", "x", some (7 * 86400000)⟩
      ⟨"u1", none, none, none, none, none⟩ = 35 := by
    unfold calculateMatchScore deadlineScore
    dsimp only
    rw [hd]
    decide
  have hB : calculateMatchScore 0 ⟨"t1", "p", none, "", "", "x", none⟩
      ⟨"u1", none, none, none, none, none⟩ = 35 := by decide
  exact ⟨h7, by rw [hA, hB], by rw [hA, hB]; decide⟩

/-- C4 (amended): re-processing a tender whose `external_id` already
exists leaves the stored row (including its title) unchanged when the
existing row's `updated_at` is 24 hours old or less, and rewrites it with
the transformed data (including the new title) only when it is strictly
more than 24 hours old (`shouldUpdate` is a strict comparison). -/
theorem processOne_staleness :
    (∀ (now : ℚ) (store : List StoredTender) (t : FetchedTender)
       (ex : StoredTender),
       store.find? (fun r => r.external_id == externalIdOf t) = some ex →
       (now - ex.updated_at) / (1000 * 60 * 60) ≤ 24 →
       processOne now store t = store)
  ∧ (∀ (now : ℚ) (store : List StoredTender) (t : FetchedTender)
       (ex : StoredTender),
       store.find? (fun r => r.external_id == externalIdOf t) = some ex →
       24 < (now - ex.updated_at) / (1000 * 60 * 60) →
       (processOne now store t).find?
           (fun r => r.external_id == externalIdOf t) =
         some { ex with title := titleOf t }) := by
  constructor
  · intro now store t ex hfind h
    have hsu : shouldUpdate now ex = false := by
      unfold shouldUpdate
      simp only [decide_eq_false_iff_not]
      exact not_lt.mpr h
    unfold processOne
    rw [hfind]
    simp [hsu]
  · intro now store t ex hfind h
    have hsu : shouldUpdate now ex = true := by
      unfold shouldUpdate
      simp only [decide_eq_true_eq]
      exact h
    unfold processOne
    rw [hfind]
    simp only [hsu, if_true]
    rw [List.find?_map]
    have hcong : ((fun r : StoredTender => r.external_id == externalIdOf t) ∘
        (fun r => if r.id = ex.id then { r with title := titleOf t } else r)) =
        (fun r : StoredTender => r.external_id == externalIdOf t) := by
      funext r
      by_cases hid : r.id = ex.id <;> simp [hid]
    rw [hcong, hfind]
    simp

/-- Witness for C4: a row refreshed 1 hour ago is left untouched, while a
row refreshed 25 hours ago gets the new title. -/
theorem processOne_staleness_witness :
    processOne 3600000 [⟨"1", "X", "old", 0⟩] ⟨"X", none, "new"⟩ =
        [⟨"1", "X", "old", 0⟩]
  ∧ (processOne 90000000 [⟨"1", "X", "old", 0⟩] ⟨"X", none, "new"⟩).find?
        (fun r => r.external_id == externalIdOf ⟨"X", none, "new"⟩) =
      some ⟨"1", "X", "new", 0⟩ :=
  ⟨processOne_staleness.1 3600000 [⟨"1", "X", "old", 0⟩] ⟨"X", none, "new"⟩
      ⟨"1", "X", "old", 0⟩ rfl (by norm_num),
    processOne_staleness.2 90000000 [⟨"1", "X", "old", 0⟩] ⟨"X", none, "new"⟩
      ⟨"1", "X", "old", 0⟩ rfl (by norm_num)⟩

/-- Counterexample to C4 as stated: a stored row exactly 24 hours old is
NOT updated — `shouldUpdate` requires strictly more than 24 hours, so the
changed title is discarded at the boundary the claim says must update. -/
theorem staleness_exactly_24h_counterexample :
    ((86400000 : ℚ) - 0) / (1000 * 60 * 60) = 24
  ∧ processOne 86400000 [⟨"1", "X", "old", 0⟩] ⟨"X", none, "new"⟩ =
      [⟨"1", "X", "old", 0⟩]
  ∧ titleOf ⟨"X", none, "new"⟩ ≠ "old" := by
  refine ⟨by norm_num, ?_, by decide⟩
  have hsu : shouldUpdate 86400000 ⟨"1", "X", "old", 0⟩ = false := by
    unfold shouldUpdate
    simp only [decide_eq_false_iff_not]
    norm_num
  unfold processOne
  rw [show ([⟨"1", "X", "old", 0⟩] : List StoredTender).find?
      (fun r => r.external_id == externalIdOf ⟨"X", none, "new"⟩) =
      some ⟨"1", "X", "old", 0⟩ from rfl]
  simp [hsu]

theorem gazetteer_norm_stable :
    ∀ q ∈ gazetteer, normalizeProvince (capitalizeJs q) = normalizeProvince q := by
  decide

/-- C5 (amended): when the structured address path yields nothing and the
lowercased title+summary text contains some gazetteer name verbatim (the
gazetteer is lowercase and keeps its diacritics, so the match is
case-insensitive but diacritic-sensitive), `extractProvince` returns the
first matching name capitalized, whose `normalizeProvince`-image equals
that of the gazetteer entry. -/
theorem extractProvince_text_gazetteer (e : Entry) (p : String)
    (h1 : provinceMethod1 e.contractFolder = .ok none)
    (hp : p ∈ gazetteer)
    (hs : strHasSub (entryTextLower e) p = true) :
    ∃ q ∈ gazetteer, extractProvince e = some (.pstr (capitalizeJs q)) ∧
      strHasSub (entryTextLower e) q = true ∧
      normalizeProvince (capitalizeJs q) = normalizeProvince q := by
  have hsome : (gazetteer.find? (fun x => strHasSub (entryTextLower e) x)).isSome
      = true := List.find?_isSome.mpr ⟨p, hp, hs⟩
  obtain ⟨q, hq⟩ := Option.isSome_iff_exists.mp hsome
  have hqmem := List.mem_of_find?_eq_some hq
  refine ⟨q, hqmem, ?_, List.find?_some hq, gazetteer_norm_stable q hqmem⟩
  unfold extractProvince
  rw [h1]
  simp only [hq]

/-- Witness for C5: a title mentioning "Madrid" (upper case) with no
structured location data extracts the province "Madrid". -/
theorem extractProvince_text_gazetteer_witness :
    ∃ q ∈ gazetteer,
      extractProvince ⟨none, some (.text "obra en Madrid"), none⟩ =
          some (.pstr (capitalizeJs q)) ∧
        strHasSub (entryTextLower ⟨none, some (.text "obra en Madrid"), none⟩) q
          = true ∧
        normalizeProvince (capitalizeJs q) = normalizeProvince q :=
  extractProvince_text_gazetteer ⟨none, some (.text "obra en Madrid"), none⟩
    "madrid" rfl (by decide) (by decide)

/-- Counterexample to C5 as stated: the text "obras en almeria" contains
the gazetteer entry "almería" as a case- and diacritic-insensitive
substring, yet `extractProvince` returns `null` — the substring search
lowercases but does not fold diacritics. -/
theorem extractProvince_diacritic_counterexample :
    strHasSub
        (String.mk ((entryTextLower
          ⟨none, some (.text "obras en almeria"), none⟩).data.map stripChar))
        (normalizeProvince "almería") = true
  ∧ extractProvince ⟨none, some (.text "obras en almeria"), none⟩ = none :=
  ⟨by decide, by decide⟩

/-- C6: the region filter keeps exactly the entries whose extracted
province is a non-empty string whose normalized form lies in the
normalized image of the provinces of interest; entries with no extractable
province are excluded, and province strings differing only in accents or
case (e.g. "Almeria" vs "Almería") normalize to the same member. -/
theorem filterByProvinces_spec :
    (∀ (entries : List Entry) (provinces : List String) (e : Entry),
       e ∈ filterByProvinces entries provinces ↔
         e ∈ entries ∧ ∃ p, extractProvince e = some (.pstr p) ∧ p ≠ "" ∧
           normalizeProvince p ∈ provinces.map normalizeProvince)
  ∧ normalizeProvince "Almeria" = normalizeProvince "Almería" := by
  constructor
  · intro entries provinces e
    unfold filterByProvinces
    rw [List.mem_filter]
    constructor
    · rintro ⟨he, hp⟩
      refine ⟨he, ?_⟩
      rcases hx : extractProvince e with _ | pv
      · rw [hx] at hp
        cases hp
      · rcases pv with p | _
        · rw [hx] at hp
          dsimp only at hp
          split_ifs at hp with hne
          exact ⟨p, rfl, hne, by simpa [List.elem_iff, List.contains] using hp⟩
        · rw [hx] at hp
          cases hp
    · rintro ⟨he, p, hx, hne, hmem⟩
      refine ⟨he, ?_⟩
      rw [hx]
      dsimp only
      rw [if_neg hne]
      simpa [List.elem_iff, List.contains] using hmem
  · decide

/-- C7: the sector filter keeps exactly the entries whose extracted CPV
code is non-null and whose string form starts with the construction
division prefix "45"; entries with no extractable code are excluded. -/
theorem filterByConstruction_spec :
    ∀ (entries : List Entry) (e : Entry),
      e ∈ filterByConstruction entries ↔
        e ∈ entries ∧ ∃ v, extractCPV e = some v ∧
          startsW (cpvToStr v) "45" = true := by
  intro entries e
  unfold filterByConstruction
  rw [List.mem_filter]
  constructor
  · rintro ⟨he, hp⟩
    refine ⟨he, ?_⟩
    rcases hx : extractCPV e with _ | v
    · rw [hx] at hp
      cases hp
    · rw [hx] at hp
      dsimp only at hp
      split_ifs at hp with hes
      exact ⟨v, rfl, hp⟩
  · rintro ⟨he, v, hx, hv⟩
    refine ⟨he, ?_⟩
    rw [hx]
    dsimp only
    split_ifs with hes
    · rw [hes] at hv
      exact absurd hv (by decide)
    · exact hv
